import Mathlib

/-!
Shallow embedding of the persistence/validation layer of the
prisoners-dilemma-game repository:

* `UuidUtils` (src/prisoners-dilemma-app/src/services/uuid-utils.ts)
* `PlayerStorageService` (src/prisoners-dilemma-app/src/services/player-storage.service.ts,
  the Result-based variant)
* `ConnectionService` (src/prisoners-dilemma-app/src/services/connection.service.ts,
  the Result-based variant)
* `DarkModeService` (dark-mode.service.ts)

Modelling conventions:
* TypeScript `Result<T,E>` (connection-result.ts) is a two-variant tagged
  container; it is embedded as `Except E T` (`Result.success` = `Except.ok`,
  `Result.failure` = `Except.error`).
* `localStorage` holds one value per fixed key; each service touches exactly
  one key, so each service's store is modelled on its own.  A stored text is
  observed only through `JSON.parse`, so a store is modelled as the parse
  outcome: absent, present-but-unparseable, or a parsed JSON value `Json`.
  Writing `JSON.stringify(v)` is modelled as storing the JSON value of `v`
  (JSON text serialization round-trips on this fragment).
* `Math.random() * 16 | 0` yields a natural number below 16; the stream of
  draws is passed in as a function `Nat → Fin 16`.
* `Date.now()` and `window.location` are passed in as explicit arguments.
* Stateful operations take the store and return `result × new store`;
  operations that never write return the store unchanged on every path.
* JS `String.prototype.trim` is embedded as `jsTrim` (drop leading and
  trailing whitespace).
-/

namespace PDG

/-- JSON values as produced by `JSON.parse`.  Numbers are modelled as
integers (every number this layer writes is an integer). -/
inductive Json where
  | null : Json
  | bool (b : Bool) : Json
  | num (n : Int) : Json
  | str (s : String) : Json
  | arr (items : List Json) : Json
  | obj (fields : List (String × Json)) : Json

/-- Property access `item.key` on a parsed JSON value: a field lookup on an
object, `undefined` (`none`) on anything else. -/
def Json.getField : Json → String → Option Json
  | .obj fields, key => fields.lookup key
  | _, _ => none

/-- JS test `item && typeof item === 'object'`: true exactly for non-null
objects, which for parsed JSON means objects and arrays. -/
def Json.isJsObject : Json → Bool
  | .obj _ => true
  | .arr _ => true
  | _ => false

/-- Whether a parsed JSON value is an array (`Array.isArray`). -/
def Json.isArr : Json → Bool
  | .arr _ => true
  | _ => false

/-- Embedding of JS `String.prototype.trim`: remove leading and trailing
whitespace. -/
def jsTrim (s : String) : String :=
  ⟨((s.data.dropWhile Char.isWhitespace).reverse.dropWhile Char.isWhitespace).reverse⟩

namespace UuidUtils

/-- Hex digit character, as produced by JS `Number.prototype.toString(16)`
for 0..15: a decimal digit (code 48 is `0`), or a lowercase letter starting
at `a` (code 97 = 87 + 10). -/
def hexDigit (n : Nat) : Char :=
  if n < 10 then Char.ofNat (48 + n) else Char.ofNat (87 + n)

/-- The template string of `generateUUID`. -/
def uuidTemplate : List Char := "xxxxxxxx-xxxx-4xxx-yxxx-xxxxxxxxxxxx".data

/-- One pass of `template.replace(/[xy]/g, c => ...)`: each `x` becomes a
random hex digit `r`, each `y` becomes `(r & 0x3 | 0x8).toString(16)`, other
characters are kept.  `k` counts the draws consumed so far. -/
def applyUuidTemplate (f : Nat → Fin 16) : List Char → Nat → List Char
  | [], _ => []
  | c :: cs, k =>
    if c = 'x' then hexDigit (f k) :: applyUuidTemplate f cs (k + 1)
    else if c = 'y' then hexDigit (((f k).val &&& 3) ||| 8) :: applyUuidTemplate f cs (k + 1)
    else c :: applyUuidTemplate f cs k

/-- `UuidUtils.generateUUID`, with the stream of `Math.random() * 16 | 0`
draws passed in as `f`. -/
def generateUUID (f : Nat → Fin 16) : String :=
  ⟨applyUuidTemplate f uuidTemplate 0⟩

/-- Character class `[0-9a-f]` under the regex `i` flag. -/
def isHexChar (c : Char) : Bool :=
  (('0' ≤ c) && (c ≤ '9')) || (('a' ≤ c) && (c ≤ 'f')) || (('A' ≤ c) && (c ≤ 'F'))

/-- Character class `[89ab]` under the regex `i` flag. -/
def isVariantChar (c : Char) : Bool :=
  (c == '8') || (c == '9') || (c == 'a') || (c == 'b') || (c == 'A') || (c == 'B')

/-- One position of the UUID regex
`/^[0-9a-f]{8}-[0-9a-f]{4}-4[0-9a-f]{3}-[89ab][0-9a-f]{3}-[0-9a-f]{12}$/i`. -/
inductive UuidPos where
  | hex : UuidPos
  | dash : UuidPos
  | four : UuidPos
  | variant : UuidPos

def UuidPos.accepts : UuidPos → Char → Bool
  | .hex, c => isHexChar c
  | .dash, c => c == '-'
  | .four, c => c == '4'
  | .variant, c => isVariantChar c

/-- The 36 positions of the anchored UUID regex, in order. -/
def uuidRegex : List UuidPos :=
  (List.replicate 8 UuidPos.hex) ++ [UuidPos.dash] ++
  (List.replicate 4 UuidPos.hex) ++ [UuidPos.dash] ++
  [UuidPos.four] ++ (List.replicate 3 UuidPos.hex) ++ [UuidPos.dash] ++
  [UuidPos.variant] ++ (List.replicate 3 UuidPos.hex) ++ [UuidPos.dash] ++
  (List.replicate 12 UuidPos.hex)

/-- Anchored match of a position list against a character list. -/
def acceptsAll : List UuidPos → List Char → Bool
  | [], [] => true
  | p :: ps, c :: cs => p.accepts c && acceptsAll ps cs
  | _, _ => false

/-- `UuidUtils.isValidUUID`: false on the empty string (`!uuid`), otherwise
an anchored match of the version-4 UUID pattern. -/
def isValidUUID (uuid : String) : Bool :=
  if uuid.data.isEmpty then false
  else acceptsAll uuidRegex uuid.data

/-- Lowercase hex digit, `[0-9a-f]` without the `i` flag: the canonical shape
the generator actually emits. -/
def isLowerHexChar (c : Char) : Bool :=
  (('0' ≤ c) && (c ≤ '9')) || (('a' ≤ c) && (c ≤ 'f'))

/-- Canonical (lowercase) reading of one pattern position: lowercase hex, the
literal hyphen, the literal version nibble `4`, or a variant nibble in
`{8, 9, a, b}`. -/
def UuidPos.acceptsCanonical : UuidPos → Char → Bool
  | .hex, c => isLowerHexChar c
  | .dash, c => c == '-'
  | .four, c => c == '4'
  | .variant, c => (c == '8') || (c == '9') || (c == 'a') || (c == 'b')

/-- Anchored canonical match: the string has exactly the 8-4-4-4-12
hyphenated lowercase-hex grouping of `uuidRegex`, with `4` at position 14
(`uuidRegex` index 14 is `UuidPos.four`) and a variant nibble in
`{8, 9, a, b}` at position 19 (`uuidRegex` index 19 is `UuidPos.variant`). -/
def acceptsAllCanonical : List UuidPos → List Char → Bool
  | [], [] => true
  | p :: ps, c :: cs => p.acceptsCanonical c && acceptsAllCanonical ps cs
  | _, _ => false

end UuidUtils

/-! Player record store (player-storage.service.ts, Result-based variant). -/

/-- Error kinds of player-result.ts `PlayerErrorType`. -/
inductive PlayerErrorType where
  | invalidId : PlayerErrorType
  | invalidName : PlayerErrorType
  | storageError : PlayerErrorType
  | playerNotFound : PlayerErrorType
  | dataCorruption : PlayerErrorType
deriving DecidableEq

/-- player-result.ts `PlayerError`: an error kind plus a message. -/
structure PlayerError where
  type : PlayerErrorType
  message : String
deriving DecidableEq

/-- player-storage.service.ts `PlayerData`. -/
structure PlayerData where
  id : String
  name : String
  openCount : Int
deriving DecidableEq

/-- The content stored under the player key, observed through `JSON.parse`:
nothing stored (`empty` also covers the falsy empty text, which the
`!storedData` guard in `getPlayer` treats like an absent value), stored text
that does not parse, or a parsed JSON value. -/
inductive PlayerStore where
  | empty : PlayerStore
  | unparseable : PlayerStore
  | value (j : Json) : PlayerStore

namespace PlayerStorageService

/-- `validateName`: fails with `INVALID_NAME` when the name is empty
(`!name`) or whitespace-only (`name.trim() === ''`), otherwise returns the
trimmed name. -/
def validateName (name : String) : Except PlayerError String :=
  if name == "" || jsTrim name == "" then
    .error ⟨.invalidName, "Player name cannot be empty"⟩
  else .ok (jsTrim name)

/-- `isValidPlayerData`: the parsed value is a non-null object with string
`id`, string `name` and numeric `openCount`. -/
def isValidPlayerData (item : Json) : Bool :=
  item.isJsObject
  && (match item.getField "id" with | some (.str _) => true | _ => false)
  && (match item.getField "name" with | some (.str _) => true | _ => false)
  && (match item.getField "openCount" with | some (.num _) => true | _ => false)

/-- The record `getPlayer` builds from a shape-valid parsed value
(`createPlayerData(parsedData.id, parsedData.name, parsedData.openCount)`);
`none` exactly when `isValidPlayerData` rejects the value. -/
def playerOfJson (item : Json) : Option PlayerData :=
  if item.isJsObject then
    match item.getField "id", item.getField "name", item.getField "openCount" with
    | some (.str i), some (.str n), some (.num k) => some ⟨i, n, k⟩
    | _, _, _ => none
  else none

/-- The JSON value `JSON.stringify` writes for a `PlayerData`. -/
def playerJson (p : PlayerData) : Json :=
  .obj [("id", .str p.id), ("name", .str p.name), ("openCount", .num p.openCount)]

/-- `getPlayer`: `PLAYER_NOT_FOUND` when nothing is stored, `DATA_CORRUPTION`
when the stored text does not parse or fails `isValidPlayerData`, otherwise
the record rebuilt from the parsed fields. -/
def getPlayer (st : PlayerStore) : Except PlayerError PlayerData :=
  match st with
  | .empty => .error ⟨.playerNotFound, "No player data found"⟩
  | .unparseable => .error ⟨.dataCorruption, "Error parsing player data"⟩
  | .value j =>
    match playerOfJson j with
    | none => .error ⟨.dataCorruption, "Player data is corrupted or invalid"⟩
    | some p => .ok p

/-- `savePlayer`: validate the name, generate an id with
`UuidUtils.generateUUID`, persist `{id, name: trimmed, openCount: 1}`
(overwriting the key), return the id.  `f` is the random stream consumed by
the id generator. -/
def savePlayer (name : String) (f : Nat → Fin 16) (st : PlayerStore) :
    Except PlayerError String × PlayerStore :=
  match validateName name with
  | .error e => (.error e, st)
  | .ok trimmed =>
    let playerId := UuidUtils.generateUUID f
    (.ok playerId, .value (playerJson ⟨playerId, trimmed, 1⟩))

/-- `updatePlayerName`: validate the name, read the current record
(propagating its failure), write back a copy with the new name
(`createPlayerWithUpdatedName`), id and openCount unchanged. -/
def updatePlayerName (name : String) (st : PlayerStore) :
    Except PlayerError Bool × PlayerStore :=
  match validateName name with
  | .error e => (.error e, st)
  | .ok trimmed =>
    match getPlayer st with
    | .error e => (.error e, st)
    | .ok p => (.ok true, .value (playerJson ⟨p.id, trimmed, p.openCount⟩))

end PlayerStorageService

/-! Connection record store (connection.service.ts, Result-based variant). -/

/-- connection-result.ts `ConnectionErrorType`. -/
inductive ConnectionErrorType where
  | invalidId : ConnectionErrorType
  | invalidName : ConnectionErrorType
  | storageError : ConnectionErrorType
  | connectionExists : ConnectionErrorType
  | connectionNotFound : ConnectionErrorType
  | invalidStatus : ConnectionErrorType
deriving DecidableEq

/-- connection-result.ts `ConnectionError`: an error kind plus a message. -/
structure ConnectionError where
  type : ConnectionErrorType
  message : String
deriving DecidableEq

/-- connection.service.ts `ConnectionStatus` (a two-valued string enum). -/
inductive ConnectionStatus where
  | pending : ConnectionStatus
  | active : ConnectionStatus
deriving DecidableEq

/-- The string value of a `ConnectionStatus` member. -/
def ConnectionStatus.value : ConnectionStatus → String
  | .pending => "pending"
  | .active => "active"

/-- `Object.values(ConnectionStatus)`. -/
def ConnectionStatus.values : List String :=
  [ConnectionStatus.pending.value, ConnectionStatus.active.value]

/-- connection.service.ts `ConnectionData`. -/
structure ConnectionData where
  id : String
  name : String
  status : ConnectionStatus
  initiatedByMe : Bool
  createdAt : Int
deriving DecidableEq

/-- The content stored under the connection key, observed through
`JSON.parse`: nothing stored (`getItem` returns null), the stored empty
string (falsy text — `JSON.parse("")` would throw, but the `!storedData`
guard returns first), non-empty stored text that does not parse, or a parsed
JSON value. -/
inductive ConnStore where
  | empty : ConnStore
  | emptyText : ConnStore
  | unparseable : ConnStore
  | value (j : Json) : ConnStore

namespace ConnectionService

/-- `validateId`: fails with `INVALID_ID` when the id is empty (`!connectionId`)
or whitespace-only (`connectionId.trim() === ''`); returns the id untrimmed. -/
def validateId (connectionId : String) : Except ConnectionError String :=
  if connectionId == "" || jsTrim connectionId == "" then
    .error ⟨.invalidId, "Connection ID cannot be empty"⟩
  else .ok connectionId

/-- `validateName`: fails with `INVALID_NAME` when the name is empty or
whitespace-only; returns the trimmed name. -/
def validateName (friendName : String) : Except ConnectionError String :=
  if friendName == "" || jsTrim friendName == "" then
    .error ⟨.invalidName, "Friend name cannot be empty"⟩
  else .ok (jsTrim friendName)

/-- `validateStatus`: fails with `INVALID_STATUS` when the argument is not a
member of `Object.values(ConnectionStatus)`.  The argument is a string: the
TypeScript parameter type is `ConnectionStatus`, but any string can reach
this check at runtime. -/
def validateStatus (status : String) : Except ConnectionError String :=
  if !(ConnectionStatus.values.contains status) then
    .error ⟨.invalidStatus, "Invalid connection status"⟩
  else .ok status

/-- `isValidConnectionData`: non-null object with string `id`, string `name`,
`status` in `Object.values(ConnectionStatus)`, boolean `initiatedByMe` and
numeric `createdAt`. -/
def isValidConnectionData (item : Json) : Bool :=
  item.isJsObject
  && (match item.getField "id" with | some (.str _) => true | _ => false)
  && (match item.getField "name" with | some (.str _) => true | _ => false)
  && (match item.getField "status" with
      | some (.str s) => ConnectionStatus.values.contains s
      | _ => false)
  && (match item.getField "initiatedByMe" with | some (.bool _) => true | _ => false)
  && (match item.getField "createdAt" with | some (.num _) => true | _ => false)

/-- Status enum member named by a string, when the string is a member value. -/
def statusOfStr (s : String) : Option ConnectionStatus :=
  if s == ConnectionStatus.pending.value then some .pending
  else if s == ConnectionStatus.active.value then some .active
  else none

/-- The `ConnectionData` view of a stored list entry: `some` exactly on the
entries `isValidConnectionData` keeps, carrying the five declared fields
(entries are observed through the `ConnectionData` interface). -/
def connOfJson (item : Json) : Option ConnectionData :=
  if item.isJsObject then
    match item.getField "id" with
    | some (.str i) =>
      (match item.getField "name" with
       | some (.str n) =>
         (match item.getField "status" with
          | some (.str s) =>
            (match item.getField "initiatedByMe" with
             | some (.bool b) =>
               (match item.getField "createdAt" with
                | some (.num t) => (statusOfStr s).map fun st => ⟨i, n, st, b, t⟩
                | _ => none)
             | _ => none)
          | _ => none)
       | _ => none)
    | _ => none
  else none

/-- The JSON value `JSON.stringify` writes for one `ConnectionData`. -/
def connJson (c : ConnectionData) : Json :=
  .obj [("id", .str c.id), ("name", .str c.name), ("status", .str c.status.value),
        ("initiatedByMe", .bool c.initiatedByMe), ("createdAt", .num c.createdAt)]

/-- `loadConnections`: nothing stored, and likewise the falsy empty text, is
an empty list (`if (!storedData) return Result.success([])`, reached before
`JSON.parse`); non-empty text that does not parse is a hard `STORAGE_ERROR`;
a parsed non-array is an empty list (warning only); a parsed array is
filtered through `isValidConnectionData`, keeping order. -/
def loadConnections : ConnStore → Except ConnectionError (List ConnectionData)
  | .empty => .ok []
  | .emptyText => .ok []
  | .unparseable =>
    .error ⟨.storageError,
      "Failed to load connections. Local storage may not be available or data may be corrupted."⟩
  | .value j =>
    match j with
    | .arr items => .ok (items.filterMap connOfJson)
    | _ => .ok []

/-- `saveConnections`: `localStorage.setItem(KEY, JSON.stringify(connections))`.
The write itself is modelled as available (claims about write failures are
out of scope), so this yields the new store directly. -/
def saveConnections (connections : List ConnectionData) : ConnStore :=
  .value (.arr (connections.map connJson))

/-- `saveConnection`: reject a record with empty id or empty name
(`!connection.id || !connection.name`, kind `INVALID_ID`), else load the
list (propagating its failure), push, and save. -/
def saveConnection (connection : ConnectionData) (st : ConnStore) :
    Except ConnectionError Bool × ConnStore :=
  if connection.id == "" || connection.name == "" then
    (.error ⟨.invalidId, "Invalid connection data"⟩, st)
  else
    match loadConnections st with
    | .error e => (.error e, st)
    | .ok connections => (.ok true, saveConnections (connections ++ [connection]))

/-- `getConnections`: the loaded list; a load failure surfaces as
`STORAGE_ERROR` (the `getValue()` throw is caught).  Never writes. -/
def getConnections (st : ConnStore) :
    Except ConnectionError (List ConnectionData) × ConnStore :=
  match loadConnections st with
  | .ok connections => (.ok connections, st)
  | .error _ =>
    (.error ⟨.storageError,
      "Failed to retrieve connections. Local storage may not be available or data may be corrupted."⟩, st)

/-- `getConnectionById`: validate the id, load, return the first entry with
that id or `CONNECTION_NOT_FOUND`.  Never writes. -/
def getConnectionById (connectionId : String) (st : ConnStore) :
    Except ConnectionError ConnectionData × ConnStore :=
  match validateId connectionId with
  | .error e => (.error e, st)
  | .ok _ =>
    match loadConnections st with
    | .error e => (.error e, st)
    | .ok connections =>
      match connections.find? (fun conn => conn.id == connectionId) with
      | none =>
        (.error ⟨.connectionNotFound,
          s!"Connection with ID {connectionId} not found"⟩, st)
      | some connection => (.ok connection, st)

/-- `getConnectionsByStatus`: validate the status, load, filter by
`conn.status === status` keeping order.  Never writes. -/
def getConnectionsByStatus (status : String) (st : ConnStore) :
    Except ConnectionError (List ConnectionData) × ConnStore :=
  match validateStatus status with
  | .error e => (.error e, st)
  | .ok _ =>
    match loadConnections st with
    | .error e => (.error e, st)
    | .ok connections =>
      (.ok (connections.filter fun conn => conn.status.value == status), st)

/-- `acceptConnection`: validate the id, load, find the first index with that
id (`findIndex`), set that entry's status to `ACTIVE` in place, save the
whole list. -/
def acceptConnection (connectionId : String) (st : ConnStore) :
    Except ConnectionError Bool × ConnStore :=
  match validateId connectionId with
  | .error e => (.error e, st)
  | .ok _ =>
    match loadConnections st with
    | .error e => (.error e, st)
    | .ok connections =>
      match connections.findIdx? (fun conn => conn.id == connectionId) with
      | none =>
        (.error ⟨.connectionNotFound,
          s!"Connection with ID {connectionId} not found"⟩, st)
      | some i =>
        let c := connections.getD i ⟨"", "", .pending, false, 0⟩
        (.ok true,
         saveConnections (connections.set i ⟨c.id, c.name, .active, c.initiatedByMe, c.createdAt⟩))

/-- `registerIncomingConnection`: validate id and name; fail with
`CONNECTION_EXISTS` when `getConnectionById` succeeds on the id; else append
a pending, `initiatedByMe: false` record stamped `now` via `saveConnection`. -/
def registerIncomingConnection (connectionId externalFriendName : String)
    (now : Int) (st : ConnStore) : Except ConnectionError Bool × ConnStore :=
  match validateId connectionId with
  | .error e => (.error e, st)
  | .ok _ =>
    match validateName externalFriendName with
    | .error e => (.error e, st)
    | .ok trimmed =>
      match (getConnectionById connectionId st).1 with
      | .ok _ =>
        (.error ⟨.connectionExists, "Connection with this ID already exists"⟩, st)
      | .error _ =>
        saveConnection ⟨connectionId, trimmed, .pending, false, now⟩ st

/-- `deleteConnection`: validate the id, load, filter out entries with that
id; `CONNECTION_NOT_FOUND` when the length did not change, else save the
filtered list. -/
def deleteConnection (connectionId : String) (st : ConnStore) :
    Except ConnectionError Bool × ConnStore :=
  match validateId connectionId with
  | .error e => (.error e, st)
  | .ok _ =>
    match loadConnections st with
    | .error e => (.error e, st)
    | .ok connections =>
      let filtered := connections.filter fun conn => !(conn.id == connectionId)
      if filtered.length == connections.length then
        (.error ⟨.connectionNotFound,
          s!"Connection with ID {connectionId} not found"⟩, st)
      else (.ok true, saveConnections filtered)

/-- `generateConnectionLink`: validate the name, generate an id, append a
pending, `initiatedByMe: true` record stamped `now` via `saveConnection`,
and return `baseUrl?connection=id`.  `f` is the random stream for the id,
`baseUrl` is `window.location.origin + window.location.pathname`. -/
def generateConnectionLink (friendName : String) (f : Nat → Fin 16)
    (now : Int) (baseUrl : String) (st : ConnStore) :
    Except ConnectionError String × ConnStore :=
  match validateName friendName with
  | .error e => (.error e, st)
  | .ok trimmed =>
    let connectionId := UuidUtils.generateUUID f
    match saveConnection ⟨connectionId, trimmed, .pending, true, now⟩ st with
    | (.error e, st2) => (.error e, st2)
    | (.ok _, st2) => (.ok s!"{baseUrl}?connection={connectionId}", st2)

end ConnectionService

/-! Theme preference store (dark-mode.service.ts). -/

/-- dark-mode.service.ts `ThemeErrorType`. -/
inductive ThemeErrorType where
  | storageError : ThemeErrorType
  | invalidTheme : ThemeErrorType
deriving DecidableEq

/-- dark-mode.service.ts `ThemeError` (kind plus message). -/
structure ThemeError where
  type : ThemeErrorType
  message : String
deriving DecidableEq

/-- dark-mode.service.ts `Theme` (a two-valued string enum). -/
inductive Theme where
  | light : Theme
  | dark : Theme
deriving DecidableEq

/-- The string value of a `Theme` member. -/
def Theme.value : Theme → String
  | .light => "light"
  | .dark => "dark"

/-- The environment the theme store touches: the stored text under the theme
key, the presence of the `dark` class on the document element, and a count of
`localStorage.setItem` calls on the theme key (to observe persisted writes). -/
structure ThemeState where
  stored : Option String
  domDark : Bool
  writeCount : Nat

namespace DarkModeService

/-- `isValidTheme`: the string is one of the two member values. -/
def isValidTheme (theme : String) : Bool :=
  theme == Theme.light.value || theme == Theme.dark.value

/-- The `Theme` member a valid stored string denotes (`savedTheme as Theme`). -/
def themeOfStr (s : String) : Theme :=
  if s == Theme.dark.value then .dark else .light

/-- `applyTheme`: add or remove the `dark` class on the document element. -/
def applyTheme (theme : Theme) (s : ThemeState) : ThemeState :=
  { s with domDark := theme == Theme.dark }

/-- `getCurrentTheme`: the stored value when present and valid (the JS guard
`savedTheme && isValidTheme(savedTheme)`; the empty string is falsy and
invalid alike), else inferred from the presence of the `dark` class. -/
def getCurrentTheme (s : ThemeState) : Except ThemeError Theme :=
  match s.stored with
  | some savedTheme =>
    if isValidTheme savedTheme then .ok (themeOfStr savedTheme)
    else .ok (if s.domDark then .dark else .light)
  | none => .ok (if s.domDark then .dark else .light)

/-- `setTheme`: reject a value outside the enum (`INVALID_THEME`; unreachable
for a `Theme` argument — the source message quotes the two values, quotes
elided here), else apply the class and persist the value (one write). -/
def setTheme (theme : Theme) (s : ThemeState) :
    Except ThemeError Bool × ThemeState :=
  if !(isValidTheme theme.value) then
    (.error ⟨.invalidTheme, "Invalid theme. Must be light or dark."⟩, s)
  else
    let s1 := applyTheme theme s
    (.ok true, { s1 with stored := some theme.value, writeCount := s1.writeCount + 1 })

/-- `toggleTheme`: read the current theme (propagating failure), flip it, and
delegate to `setTheme`, returning the new theme. -/
def toggleTheme (s : ThemeState) : Except ThemeError Theme × ThemeState :=
  match getCurrentTheme s with
  | .error e => (.error e, s)
  | .ok currentTheme =>
    let newTheme := if currentTheme == Theme.light then Theme.dark else Theme.light
    match setTheme newTheme s with
    | (.error e, s2) => (.error e, s2)
    | (.ok _, s2) => (.ok newTheme, s2)

end DarkModeService

/-! Theorems.  General helper lemmas first, then one theorem per claim (with
witnesses and counterexamples where called for). -/

namespace UuidUtils

theorem lowerHex_hexDigit : ∀ r : Fin 16, isLowerHexChar (hexDigit r.val) = true := by
  decide

theorem hex_hexDigit : ∀ r : Fin 16, isHexChar (hexDigit r.val) = true := by
  decide

theorem variantCanonical_hexDigit :
    ∀ r : Fin 16,
    ((hexDigit ((r.val &&& 3) ||| 8) == '8') || (hexDigit ((r.val &&& 3) ||| 8) == '9')
      || (hexDigit ((r.val &&& 3) ||| 8) == 'a') || (hexDigit ((r.val &&& 3) ||| 8) == 'b'))
      = true := by
  decide

theorem variant_hexDigit :
    ∀ r : Fin 16, isVariantChar (hexDigit ((r.val &&& 3) ||| 8)) = true := by
  decide

end UuidUtils

/-- C8.  Every output of `generateUUID` (for every sequence of random draws
`f`) is 36 characters long, matches the canonical 8-4-4-4-12 hyphenated
lowercase-hex grouping with the version nibble `4` at position 14 and a
variant nibble in `{8, 9, a, b}` at position 19 (`acceptsAllCanonical
uuidRegex` pins exactly these positions), and is accepted by the companion
validator `isValidUUID`. -/
theorem c8_generateUUID_shape (f : Nat → Fin 16) :
    (UuidUtils.generateUUID f).length = 36 ∧
    UuidUtils.acceptsAllCanonical UuidUtils.uuidRegex (UuidUtils.generateUUID f).data = true ∧
    UuidUtils.isValidUUID (UuidUtils.generateUUID f) = true := by
  refine ⟨?_, ?_, ?_⟩ <;>
    simp [UuidUtils.generateUUID, UuidUtils.uuidTemplate, UuidUtils.applyUuidTemplate,
      UuidUtils.isValidUUID, UuidUtils.uuidRegex, UuidUtils.acceptsAll,
      UuidUtils.acceptsAllCanonical, UuidUtils.UuidPos.accepts,
      UuidUtils.UuidPos.acceptsCanonical, String.length, List.replicate,
      UuidUtils.lowerHex_hexDigit, UuidUtils.hex_hexDigit,
      UuidUtils.variantCanonical_hexDigit, UuidUtils.variant_hexDigit]

theorem jsTrim_empty : jsTrim "" = "" := rfl

theorem jsTrim_eq_empty_of_eq_empty {s : String} (h : s = "") : jsTrim s = "" := by
  rw [h]
  rfl

theorem trim_guard_false {s : String} (h : jsTrim s ≠ "") :
    (s == "" || jsTrim s == "") = false := by
  have hs : s ≠ "" := fun he => h (jsTrim_eq_empty_of_eq_empty he)
  simp [hs, h]

namespace ConnectionService

theorem statusOfStr_value (st : ConnectionStatus) : statusOfStr st.value = some st := by
  cases st <;> rfl

theorem statusOfStr_isSome (s : String) :
    (statusOfStr s).isSome = ConnectionStatus.values.contains s := by
  rw [statusOfStr, ConnectionStatus.values]
  by_cases h1 : s == ConnectionStatus.pending.value <;>
    by_cases h2 : s == ConnectionStatus.active.value <;>
    simp_all [ConnectionStatus.value, List.contains]

theorem connOfJson_connJson (c : ConnectionData) : connOfJson (connJson c) = some c := by
  cases c with
  | mk i n st b t =>
    cases st <;> rfl

theorem connOfJson_isSome (j : Json) :
    (connOfJson j).isSome = isValidConnectionData j := by
  rw [connOfJson, isValidConnectionData]
  cases j with
  | null => rfl
  | bool b => rfl
  | num n => rfl
  | str s => rfl
  | arr items => rfl
  | obj fields =>
    simp only [Json.isJsObject, if_true, Bool.true_and]
    rcases h1 : Json.getField (Json.obj fields) "id" with _ | j1
    · simp [h1]
    · cases j1 <;> simp [h1]
      rcases h2 : Json.getField (Json.obj fields) "name" with _ | j2
      · simp [h2]
      · cases j2 <;> simp [h2]
        rcases h3 : Json.getField (Json.obj fields) "status" with _ | j3
        · simp [h3]
        · cases j3 <;> simp [h3]
          rcases h4 : Json.getField (Json.obj fields) "initiatedByMe" with _ | j4
          · simp [h4]
          · cases j4 <;> simp [h4]
            rcases h5 : Json.getField (Json.obj fields) "createdAt" with _ | j5
            · simp [h5]
            · cases j5 <;> simp [h5, statusOfStr_isSome]

theorem loadConnections_saveConnections (l : List ConnectionData) :
    loadConnections (saveConnections l) = .ok l := by
  have hc : connOfJson ∘ connJson = some := funext connOfJson_connJson
  simp [loadConnections, saveConnections, List.filterMap_map, hc]

theorem loadConnections_error_type {st : ConnStore} {e : ConnectionError}
    (h : loadConnections st = .error e) : e.type = .storageError := by
  cases st with
  | empty => exact absurd h (by simp [loadConnections])
  | emptyText => exact absurd h (by simp [loadConnections])
  | unparseable =>
    simp only [loadConnections] at h
    cases h
    rfl
  | value j => cases j <;> simp_all [loadConnections]

end ConnectionService

theorem UuidUtils.generateUUID_length (f : Nat → Fin 16) :
    (UuidUtils.generateUUID f).length = 36 := by
  simp [UuidUtils.generateUUID, UuidUtils.uuidTemplate, UuidUtils.applyUuidTemplate,
    String.length]

theorem PlayerStorageService.playerOfJson_playerJson (p : PlayerData) :
    PlayerStorageService.playerOfJson (PlayerStorageService.playerJson p) = some p :=
  rfl

theorem PlayerStorageService.getPlayer_playerJson (p : PlayerData) :
    PlayerStorageService.getPlayer (PlayerStore.value (PlayerStorageService.playerJson p)) =
      .ok p := by
  simp [PlayerStorageService.getPlayer, PlayerStorageService.playerOfJson_playerJson]

/-- C1 (amended).  For every name that is non-empty after trimming, every
random stream and every prior store, `savePlayer(name)` returns a success
carrying the generated 36-character identifier, and `getPlayer()` on the
resulting store returns a record with that id, the trimmed name, and
openCount 1; for every name that is empty or whitespace-only, `savePlayer`
fails with `INVALID_NAME`.  (The unamended claim said the record carries the
name as passed; the code stores the trimmed name, see the counterexample.) -/
theorem c1_savePlayer_getPlayer :
    (∀ (name : String) (f : Nat → Fin 16) (st : PlayerStore), jsTrim name ≠ "" →
      (PlayerStorageService.savePlayer name f st).1 = .ok (UuidUtils.generateUUID f) ∧
      (UuidUtils.generateUUID f).length = 36 ∧
      PlayerStorageService.getPlayer (PlayerStorageService.savePlayer name f st).2 =
        .ok ⟨UuidUtils.generateUUID f, jsTrim name, 1⟩) ∧
    (∀ (name : String) (f : Nat → Fin 16) (st : PlayerStore), jsTrim name = "" →
      (PlayerStorageService.savePlayer name f st).1 =
        .error ⟨.invalidName, "Player name cannot be empty"⟩) := by
  constructor
  · intro name f st h
    refine ⟨?_, UuidUtils.generateUUID_length f, ?_⟩ <;>
      simp [PlayerStorageService.savePlayer, PlayerStorageService.validateName,
        trim_guard_false h, PlayerStorageService.getPlayer_playerJson]
  · intro name f st h
    simp [PlayerStorageService.savePlayer, PlayerStorageService.validateName, h]

/-- C1 counterexample (to the unamended claim): for the name `" A "` — which
is non-empty after trimming — `savePlayer` succeeds but the record returned
by `getPlayer` carries the trimmed name `"A"`, not the passed name `" A "`. -/
theorem c1_counterexample :
    (PlayerStorageService.getPlayer
        (PlayerStorageService.savePlayer " A " (fun _ => (0 : Fin 16))
          PlayerStore.empty).2).toOption.map PlayerData.name = some "A" ∧
    some "A" ≠ some " A " := by
  exact ⟨rfl, by decide⟩

/-- C1 witness: the amended theorem applied at the name `"Alice"`, an
all-zero random stream and the empty store, and at the whitespace name
`"  "`. -/
theorem c1_witness :
    (PlayerStorageService.savePlayer "Alice" (fun _ => (0 : Fin 16)) PlayerStore.empty).1 =
      .ok (UuidUtils.generateUUID (fun _ => (0 : Fin 16))) ∧
    (PlayerStorageService.savePlayer "  " (fun _ => (0 : Fin 16)) PlayerStore.empty).1 =
      .error ⟨.invalidName, "Player name cannot be empty"⟩ :=
  ⟨(c1_savePlayer_getPlayer.1 "Alice" (fun _ => (0 : Fin 16)) PlayerStore.empty (by decide)).1,
   c1_savePlayer_getPlayer.2 "  " (fun _ => (0 : Fin 16)) PlayerStore.empty (by decide)⟩

/-- C6.  For every stored valid player record `p` and every name non-empty
after trimming, `updatePlayerName(name)` succeeds and the store then holds a
record with the new trimmed name and the old id and openCount; on an empty
store it fails with `PLAYER_NOT_FOUND`. -/
theorem c6_updatePlayerName :
    (∀ (st : PlayerStore) (p : PlayerData) (name : String),
      PlayerStorageService.getPlayer st = .ok p → jsTrim name ≠ "" →
      PlayerStorageService.updatePlayerName name st =
        (.ok true,
         PlayerStore.value (PlayerStorageService.playerJson ⟨p.id, jsTrim name, p.openCount⟩)) ∧
      PlayerStorageService.getPlayer (PlayerStorageService.updatePlayerName name st).2 =
        .ok ⟨p.id, jsTrim name, p.openCount⟩) ∧
    (∀ name : String, jsTrim name ≠ "" →
      (PlayerStorageService.updatePlayerName name PlayerStore.empty).1 =
        .error ⟨.playerNotFound, "No player data found"⟩) := by
  constructor
  · intro st p name hp h
    constructor <;>
      simp [PlayerStorageService.updatePlayerName, PlayerStorageService.validateName,
        trim_guard_false h, hp, PlayerStorageService.getPlayer_playerJson]
  · intro name h
    simp [PlayerStorageService.updatePlayerName, PlayerStorageService.validateName,
      trim_guard_false h, PlayerStorageService.getPlayer]

/-- C6 witness: the theorem applied to the stored record
`{id: "id-1", name: "Old", openCount: 7}` and the name `"  New  "`, and to
the empty store. -/
theorem c6_witness :
    PlayerStorageService.updatePlayerName "  New  "
        (PlayerStore.value (PlayerStorageService.playerJson ⟨"id-1", "Old", 7⟩)) =
      (.ok true,
       PlayerStore.value (PlayerStorageService.playerJson ⟨"id-1", "New", 7⟩)) ∧
    (PlayerStorageService.updatePlayerName "  New  " PlayerStore.empty).1 =
      .error ⟨.playerNotFound, "No player data found"⟩ :=
  ⟨(c6_updatePlayerName.1
      (PlayerStore.value (PlayerStorageService.playerJson ⟨"id-1", "Old", 7⟩))
      ⟨"id-1", "Old", 7⟩ "  New  " rfl (by decide)).1,
   c6_updatePlayerName.2 "  New  " (by decide)⟩

/-- C4 (amended).  Round-trip of the connection list: a stored text parsing
to an array loads as a success carrying exactly the shape-valid entries in
their stored order (`filterMap connOfJson`, where `connOfJson` is `some`
exactly on the entries `isValidConnectionData` keeps) with malformed entries
silently dropped; a stored text parsing to a non-array loads as a success
with the empty list; a stored NON-EMPTY text that does not parse is a
`STORAGE_ERROR` failure; and the stored empty-string text — which does not
parse either — is caught by the falsy `!storedData` guard and loads as a
success with the empty list.  (The unamended claim demanded `STORAGE_ERROR`
for every text that does not parse; the empty text refutes that — see the
counterexample.) -/
theorem c4_getConnections_roundtrip :
    (∀ items : List Json,
      ConnectionService.getConnections (ConnStore.value (Json.arr items)) =
        (.ok (items.filterMap ConnectionService.connOfJson),
         ConnStore.value (Json.arr items))) ∧
    (∀ j : Json,
      (ConnectionService.connOfJson j).isSome = ConnectionService.isValidConnectionData j) ∧
    (∀ j : Json, j.isArr = false →
      ConnectionService.getConnections (ConnStore.value j) = (.ok [], ConnStore.value j)) ∧
    ((ConnectionService.getConnections ConnStore.unparseable).1 =
      .error ⟨.storageError,
        "Failed to retrieve connections. Local storage may not be available or data may be corrupted."⟩) ∧
    (ConnectionService.getConnections ConnStore.emptyText = (.ok [], ConnStore.emptyText)) := by
  refine ⟨?_, ConnectionService.connOfJson_isSome, ?_, rfl, rfl⟩
  · intro items
    simp [ConnectionService.getConnections, ConnectionService.loadConnections]
  · intro j hj
    cases j <;> simp_all [ConnectionService.getConnections, ConnectionService.loadConnections,
      Json.isArr]

/-- C4 counterexample (to the unamended claim): the stored empty-string text
does not parse (`JSON.parse("")` throws), yet `getConnections` returns a
success with the empty list — not the `STORAGE_ERROR` failure the claim
demands for every text that does not parse — because the `!storedData` guard
in `loadConnections` treats falsy stored text like an absent value. -/
theorem c4_counterexample :
    ConnectionService.getConnections ConnStore.emptyText = (.ok [], ConnStore.emptyText) ∧
    (ConnectionService.getConnections ConnStore.emptyText).1.isOk = true :=
  ⟨rfl, rfl⟩

/-- C4 witness: the non-array branch applied to the stored string `"nope"`. -/
theorem c4_witness :
    ConnectionService.getConnections (ConnStore.value (Json.str "nope")) =
      (.ok [], ConnStore.value (Json.str "nope")) :=
  c4_getConnections_roundtrip.2.2.1 (Json.str "nope") rfl

/-- C5.  `getConnectionsByStatus` fails with `INVALID_STATUS` on any string
outside the two enumerated values, and on a member value returns exactly the
loaded valid records whose status equals the argument, in stored order. -/
theorem c5_getConnectionsByStatus :
    (∀ (status : String) (st : ConnStore), status ≠ "pending" → status ≠ "active" →
      ConnectionService.getConnectionsByStatus status st =
        (.error ⟨.invalidStatus, "Invalid connection status"⟩, st)) ∧
    (∀ (status : String) (st : ConnStore) (l : List ConnectionData),
      (status = "pending" ∨ status = "active") →
      ConnectionService.loadConnections st = .ok l →
      ConnectionService.getConnectionsByStatus status st =
        (.ok (l.filter fun conn => conn.status.value == status), st)) := by
  constructor
  · intro status st h1 h2
    simp [ConnectionService.getConnectionsByStatus, ConnectionService.validateStatus,
      ConnectionStatus.values, ConnectionStatus.value, h1, h2]
  · intro status st l hmem hl
    rcases hmem with rfl | rfl <;>
      simp [ConnectionService.getConnectionsByStatus, ConnectionService.validateStatus,
        ConnectionStatus.values, ConnectionStatus.value, hl]

/-- C5 witness: `"bogus"` is rejected on the empty store, and `"pending"`
filters a two-record store down to its pending record, preserving order. -/
theorem c5_witness :
    ConnectionService.getConnectionsByStatus "bogus" ConnStore.empty =
      (.error ⟨.invalidStatus, "Invalid connection status"⟩, ConnStore.empty) ∧
    (ConnectionService.getConnectionsByStatus "pending"
        (ConnectionService.saveConnections
          [⟨"a", "Bob", .active, true, 4⟩, ⟨"b", "Carol", .pending, false, 5⟩])).1 =
      .ok [⟨"b", "Carol", .pending, false, 5⟩] := by
  constructor
  · exact c5_getConnectionsByStatus.1 "bogus" ConnStore.empty (by decide) (by decide)
  · have h := c5_getConnectionsByStatus.2 "pending"
      (ConnectionService.saveConnections
        [⟨"a", "Bob", .active, true, 4⟩, ⟨"b", "Carol", .pending, false, 5⟩])
      [⟨"a", "Bob", .active, true, 4⟩, ⟨"b", "Carol", .pending, false, 5⟩]
      (Or.inl rfl) (ConnectionService.loadConnections_saveConnections _)
    rw [h]
    rfl

/-- C2 (amended).  For every id and friendName non-empty after trimming,
when the loaded valid list already holds a record with that id (the first
such record being `c`), `registerIncomingConnection` fails with
`CONNECTION_EXISTS`, the store is unchanged, and `getConnectionById` still
returns `c` with its original name.  (The unamended claim quantified over
every non-empty id; a whitespace-only id is rejected earlier with
`INVALID_ID` even when a shape-valid record with that id is stored — see the
counterexample.) -/
theorem c2_registerIncoming_duplicate :
    ∀ (connectionId friendName : String) (now : Int) (st : ConnStore)
      (l : List ConnectionData) (c : ConnectionData),
      jsTrim connectionId ≠ "" → jsTrim friendName ≠ "" →
      ConnectionService.loadConnections st = .ok l →
      l.find? (fun conn => conn.id == connectionId) = some c →
      ConnectionService.registerIncomingConnection connectionId friendName now st =
        (.error ⟨.connectionExists, "Connection with this ID already exists"⟩, st) ∧
      (ConnectionService.getConnectionById connectionId st).1 = .ok c := by
  intro cid name now st l c hid hname hl hfind
  have hby : ConnectionService.getConnectionById cid st = (.ok c, st) := by
    simp [ConnectionService.getConnectionById, ConnectionService.validateId,
      trim_guard_false hid, hl, hfind]
  refine ⟨?_, by rw [hby]⟩
  simp [ConnectionService.registerIncomingConnection, ConnectionService.validateId,
    ConnectionService.validateName, trim_guard_false hid, trim_guard_false hname, hby]

/-- C2 counterexample (to the unamended claim): the id `" "` is non-empty and
a shape-valid record with that id is stored, yet `registerIncomingConnection`
fails with `INVALID_ID`, not `CONNECTION_EXISTS`. -/
theorem c2_counterexample :
    ConnectionService.loadConnections
        (ConnectionService.saveConnections [⟨" ", "Alice", .pending, false, 0⟩]) =
      .ok [⟨" ", "Alice", .pending, false, 0⟩] ∧
    (ConnectionService.registerIncomingConnection " " "Bob" 1
        (ConnectionService.saveConnections [⟨" ", "Alice", .pending, false, 0⟩])).1 =
      .error ⟨.invalidId, "Connection ID cannot be empty"⟩ ∧
    ConnectionErrorType.invalidId ≠ ConnectionErrorType.connectionExists :=
  ⟨rfl, rfl, by decide⟩

/-- C2 witness: a second registration of id `"abc"` against a store already
holding `{id: "abc", name: "Alice"}` is rejected and the lookup still returns
Alice. -/
theorem c2_witness :
    ConnectionService.registerIncomingConnection "abc" "Bob" 2
        (ConnectionService.saveConnections [⟨"abc", "Alice", .pending, false, 1⟩]) =
      (.error ⟨.connectionExists, "Connection with this ID already exists"⟩,
       ConnectionService.saveConnections [⟨"abc", "Alice", .pending, false, 1⟩]) ∧
    (ConnectionService.getConnectionById "abc"
        (ConnectionService.saveConnections [⟨"abc", "Alice", .pending, false, 1⟩])).1 =
      .ok ⟨"abc", "Alice", .pending, false, 1⟩ :=
  c2_registerIncoming_duplicate "abc" "Bob" 2
    (ConnectionService.saveConnections [⟨"abc", "Alice", .pending, false, 1⟩])
    [⟨"abc", "Alice", .pending, false, 1⟩] ⟨"abc", "Alice", .pending, false, 1⟩
    (by decide) (by decide) rfl rfl

theorem filter_ne_id_length (cid : String) :
    ∀ l : List ConnectionData, (l.map ConnectionData.id).Nodup →
      (∃ c ∈ l, c.id = cid) →
      (l.filter fun x => !(x.id == cid)).length + 1 = l.length := by
  intro l
  induction l with
  | nil =>
    rintro _ ⟨c, hc, _⟩
    cases hc
  | cons a as ih =>
    intro hnd hex
    rw [List.map_cons, List.nodup_cons] at hnd
    by_cases ha : a.id = cid
    · have hrest : as.filter (fun x => !(x.id == cid)) = as := by
        rw [List.filter_eq_self]
        intro b hb
        have hbne : b.id ≠ cid := by
          intro he
          have hmm : a.id ∈ as.map ConnectionData.id := by
            rw [ha, ← he]
            exact List.mem_map_of_mem ConnectionData.id hb
          exact hnd.1 hmm
        simp [hbne]
      simp [List.filter_cons, ha, hrest]
    · rcases hex with ⟨c, hc, hcid⟩
      rcases List.mem_cons.mp hc with rfl | hmem
      · exact absurd hcid ha
      · have hrec := ih hnd.2 ⟨c, hmem, hcid⟩
        simp only [List.filter_cons, List.length_cons]
        have hab : (a.id == cid) = false := by simp [ha]
        simp [hab]
        omega

/-- C3 (amended).  For every id non-empty after trimming: when no loaded
record has that id, `deleteConnection` fails with `CONNECTION_NOT_FOUND` and
the store is unchanged; when some loaded record has that id (ids unique in
the list), it succeeds, persists exactly the original list minus the records
with that id (others untouched, order preserved) and the length shrinks by
exactly one.  (The unamended claim quantified over every non-empty id; a
whitespace-only id is rejected with `INVALID_ID`, not `CONNECTION_NOT_FOUND`
— see the counterexample.) -/
theorem c3_deleteConnection :
    (∀ (connectionId : String) (st : ConnStore) (l : List ConnectionData),
      jsTrim connectionId ≠ "" →
      ConnectionService.loadConnections st = .ok l →
      (∀ c ∈ l, c.id ≠ connectionId) →
      ConnectionService.deleteConnection connectionId st =
        (.error ⟨.connectionNotFound, s!"Connection with ID {connectionId} not found"⟩, st)) ∧
    (∀ (connectionId : String) (st : ConnStore) (l : List ConnectionData),
      jsTrim connectionId ≠ "" →
      ConnectionService.loadConnections st = .ok l →
      (l.map ConnectionData.id).Nodup →
      (∃ c ∈ l, c.id = connectionId) →
      ConnectionService.deleteConnection connectionId st =
        (.ok true,
         ConnectionService.saveConnections (l.filter fun c => !(c.id == connectionId))) ∧
      (ConnectionService.getConnections (ConnectionService.deleteConnection connectionId st).2).1 =
        .ok (l.filter fun c => !(c.id == connectionId)) ∧
      (l.filter fun c => !(c.id == connectionId)).length + 1 = l.length) := by
  constructor
  · intro cid st l hid hl hnone
    have hfe : l.filter (fun c => !(c.id == cid)) = l := by
      rw [List.filter_eq_self]
      intro b hb
      simp [hnone b hb]
    simp [ConnectionService.deleteConnection, ConnectionService.validateId,
      trim_guard_false hid, hl, hfe]
  · intro cid st l hid hl hnd hex
    have hlen := filter_ne_id_length cid l hnd hex
    have hne : ((l.filter fun c => !(c.id == cid)).length == l.length) = false := by
      have hlt : (l.filter fun c => !(c.id == cid)).length ≠ l.length := by omega
      simpa using hlt
    have hdel : ConnectionService.deleteConnection cid st =
        (.ok true, ConnectionService.saveConnections (l.filter fun c => !(c.id == cid))) := by
      simp [ConnectionService.deleteConnection, ConnectionService.validateId,
        trim_guard_false hid, hl, hne]
    refine ⟨hdel, ?_, hlen⟩
    rw [hdel]
    simp [ConnectionService.getConnections, ConnectionService.loadConnections_saveConnections]

/-- C3 counterexample (to the unamended claim): the id `" "` is non-empty and
absent from the (empty) store, yet `deleteConnection` fails with
`INVALID_ID`, not `CONNECTION_NOT_FOUND`. -/
theorem c3_counterexample :
    (ConnectionService.deleteConnection " " ConnStore.empty).1 =
      .error ⟨.invalidId, "Connection ID cannot be empty"⟩ ∧
    ConnectionErrorType.invalidId ≠ ConnectionErrorType.connectionNotFound :=
  ⟨rfl, by decide⟩

/-- C3 witness: deleting the missing id `"zz"` from a one-record store fails
with `CONNECTION_NOT_FOUND` and leaves the store; deleting `"b"` from a
two-record store keeps exactly the other record. -/
theorem c3_witness :
    ConnectionService.deleteConnection "zz"
        (ConnectionService.saveConnections [⟨"a", "Bob", .pending, true, 3⟩]) =
      (.error ⟨.connectionNotFound, "Connection with ID zz not found"⟩,
       ConnectionService.saveConnections [⟨"a", "Bob", .pending, true, 3⟩]) ∧
    ConnectionService.deleteConnection "b"
        (ConnectionService.saveConnections
          [⟨"a", "Bob", .pending, true, 3⟩, ⟨"b", "Carol", .active, false, 4⟩]) =
      (.ok true, ConnectionService.saveConnections [⟨"a", "Bob", .pending, true, 3⟩]) := by
  constructor
  · exact c3_deleteConnection.1 "zz"
      (ConnectionService.saveConnections [⟨"a", "Bob", .pending, true, 3⟩])
      [⟨"a", "Bob", .pending, true, 3⟩] (by decide) rfl (by decide)
  · have h := (c3_deleteConnection.2 "b"
      (ConnectionService.saveConnections
        [⟨"a", "Bob", .pending, true, 3⟩, ⟨"b", "Carol", .active, false, 4⟩])
      [⟨"a", "Bob", .pending, true, 3⟩, ⟨"b", "Carol", .active, false, 4⟩]
      (by decide) rfl (by decide) ⟨⟨"b", "Carol", .active, false, 4⟩, by decide, rfl⟩).1
    rw [h]
    rfl

theorem findIdx?_some_lt {α : Type} (p : α → Bool) :
    ∀ (l : List α) (i : Nat), List.findIdx? p l = some i → i < l.length := by
  intro l
  induction l with
  | nil =>
    intro i h
    simp [List.findIdx?_nil] at h
  | cons a as ih =>
    intro i h
    rw [List.findIdx?_cons] at h
    by_cases hp : p a
    · simp only [hp, if_true, Option.some.injEq] at h
      simp only [List.length_cons]
      omega
    · simp only [hp, if_false, Bool.false_eq_true] at h
      have hsh := h
      simp at hsh
      obtain ⟨a2, ha2, hsum⟩ := hsh
      have := ih a2 ha2
      simp only [List.length_cons]
      omega

/-- C9 (amended).  For every id non-empty after trimming that is present in
the loaded valid list (first match at index `i`, record `c`, any status —
including already-active, so accepting twice is idempotent),
`acceptConnection` succeeds; the persisted list is the original with entry
`i` replaced by `c` with status `active` (same id, name, initiatedByMe,
createdAt), same length, every other position unchanged.  (The unamended
claim quantified over every id present in the stored valid list; a stored
shape-valid record can carry a whitespace-only id, which `validateId`
rejects with `INVALID_ID` — see the counterexample.) -/
theorem c9_acceptConnection :
    ∀ (connectionId : String) (st : ConnStore) (l : List ConnectionData) (i : Nat),
      jsTrim connectionId ≠ "" →
      ConnectionService.loadConnections st = .ok l →
      l.findIdx? (fun conn => conn.id == connectionId) = some i →
      ∃ c : ConnectionData, l[i]? = some c ∧
        ConnectionService.acceptConnection connectionId st =
          (.ok true,
           ConnectionService.saveConnections
             (l.set i ⟨c.id, c.name, .active, c.initiatedByMe, c.createdAt⟩)) ∧
        (ConnectionService.getConnections
            (ConnectionService.acceptConnection connectionId st).2).1 =
          .ok (l.set i ⟨c.id, c.name, .active, c.initiatedByMe, c.createdAt⟩) ∧
        (l.set i ⟨c.id, c.name, .active, c.initiatedByMe, c.createdAt⟩).length = l.length ∧
        (∀ j : Nat, j ≠ i →
          (l.set i ⟨c.id, c.name, .active, c.initiatedByMe, c.createdAt⟩)[j]? = l[j]?) ∧
        (l.set i ⟨c.id, c.name, .active, c.initiatedByMe, c.createdAt⟩)[i]? =
          some ⟨c.id, c.name, .active, c.initiatedByMe, c.createdAt⟩ := by
  intro cid st l i hid hl hfind
  have hi : i < l.length := findIdx?_some_lt (fun conn => conn.id == cid) l i hfind
  have hgd : l[i]?.getD (⟨"", "", .pending, false, 0⟩ : ConnectionData) = l[i] := by
    rw [List.getElem?_eq_getElem hi]
    rfl
  have hgd2 : l.getD i ⟨"", "", .pending, false, 0⟩ = l[i] :=
    List.getD_eq_getElem l ⟨"", "", .pending, false, 0⟩ hi
  have hacc : ConnectionService.acceptConnection cid st =
      (.ok true,
       ConnectionService.saveConnections
         (l.set i ⟨l[i].id, l[i].name, .active, l[i].initiatedByMe, l[i].createdAt⟩)) := by
    simp [ConnectionService.acceptConnection, ConnectionService.validateId,
      trim_guard_false hid, hl, hfind, hgd, hgd2]
  refine ⟨l[i], List.getElem?_eq_getElem hi, hacc, ?_, by simp, ?_, ?_⟩
  · rw [hacc]
    simp [ConnectionService.getConnections, ConnectionService.loadConnections_saveConnections]
  · intro j hj
    exact List.getElem?_set_ne (by omega)
  · rw [List.getElem?_set_self (by omega)]

/-- C9 counterexample (to the unamended claim): the shape-valid record
`{id: " ", name: "Bob"}` is present in the stored valid list, yet
`acceptConnection(" ")` fails with `INVALID_ID` instead of succeeding. -/
theorem c9_counterexample :
    ConnectionService.loadConnections
        (ConnectionService.saveConnections [⟨" ", "Bob", .pending, false, 0⟩]) =
      .ok [⟨" ", "Bob", .pending, false, 0⟩] ∧
    (ConnectionService.acceptConnection " "
        (ConnectionService.saveConnections [⟨" ", "Bob", .pending, false, 0⟩])).1 =
      .error ⟨.invalidId, "Connection ID cannot be empty"⟩ :=
  ⟨rfl, rfl⟩

/-- C9 witness: accepting `"a"` in a two-record store (the `"a"` record
pending) activates exactly that record and keeps the other. -/
theorem c9_witness :
    ConnectionService.acceptConnection "a"
        (ConnectionService.saveConnections
          [⟨"a", "Bob", .pending, true, 3⟩, ⟨"b", "Carol", .active, false, 4⟩]) =
      (.ok true,
       ConnectionService.saveConnections
         [⟨"a", "Bob", .active, true, 3⟩, ⟨"b", "Carol", .active, false, 4⟩]) := by
  obtain ⟨c, hc, hacc, -⟩ := c9_acceptConnection "a"
    (ConnectionService.saveConnections
      [⟨"a", "Bob", .pending, true, 3⟩, ⟨"b", "Carol", .active, false, 4⟩])
    [⟨"a", "Bob", .pending, true, 3⟩, ⟨"b", "Carol", .active, false, 4⟩] 0
    (by decide) rfl rfl
  simp only [List.getElem?_cons_zero, Option.some.injEq] at hc
  rw [← hc] at hacc
  exact hacc

/-- C7.  From any state whose current theme resolves to `t`, two successive
`toggleTheme()` calls return `t` again, and each call performs exactly one
persisted write of the theme key (the write counter grows by one per call,
two in total). -/
theorem c7_toggleTheme_involution :
    ∀ (s : ThemeState) (t : Theme), DarkModeService.getCurrentTheme s = .ok t →
      (DarkModeService.toggleTheme (DarkModeService.toggleTheme s).2).1 = .ok t ∧
      (DarkModeService.toggleTheme s).2.writeCount = s.writeCount + 1 ∧
      (DarkModeService.toggleTheme (DarkModeService.toggleTheme s).2).2.writeCount =
        s.writeCount + 2 := by
  intro s t h
  cases t with
  | light =>
    have h1 : DarkModeService.toggleTheme s =
        (.ok Theme.dark,
         { stored := some "dark", domDark := true, writeCount := s.writeCount + 1 }) := by
      simp [DarkModeService.toggleTheme, h, DarkModeService.setTheme,
        DarkModeService.applyTheme, DarkModeService.isValidTheme, Theme.value]
    have h2 : DarkModeService.toggleTheme
        (⟨some "dark", true, s.writeCount + 1⟩ : ThemeState) =
        (.ok Theme.light,
         { stored := some "light", domDark := false, writeCount := s.writeCount + 1 + 1 }) := by
      simp [DarkModeService.toggleTheme, DarkModeService.getCurrentTheme,
        DarkModeService.setTheme, DarkModeService.applyTheme, DarkModeService.isValidTheme,
        DarkModeService.themeOfStr, Theme.value]
    rw [h1]
    rw [h2]
    refine ⟨rfl, rfl, ?_⟩
    show s.writeCount + 1 + 1 = s.writeCount + 2
    omega
  | dark =>
    have h1 : DarkModeService.toggleTheme s =
        (.ok Theme.light,
         { stored := some "light", domDark := false, writeCount := s.writeCount + 1 }) := by
      simp [DarkModeService.toggleTheme, h, DarkModeService.setTheme,
        DarkModeService.applyTheme, DarkModeService.isValidTheme, Theme.value]
    have h2 : DarkModeService.toggleTheme
        (⟨some "light", false, s.writeCount + 1⟩ : ThemeState) =
        (.ok Theme.dark,
         { stored := some "dark", domDark := true, writeCount := s.writeCount + 1 + 1 }) := by
      simp [DarkModeService.toggleTheme, DarkModeService.getCurrentTheme,
        DarkModeService.setTheme, DarkModeService.applyTheme, DarkModeService.isValidTheme,
        DarkModeService.themeOfStr, Theme.value]
    rw [h1]
    rw [h2]
    refine ⟨rfl, rfl, ?_⟩
    show s.writeCount + 1 + 1 = s.writeCount + 2
    omega

/-- C7 witness: the theorem applied to the state with stored theme `"dark"`;
the second toggle returns `dark` and two writes happened. -/
theorem c7_witness :
    (DarkModeService.toggleTheme
        (DarkModeService.toggleTheme ⟨some "dark", true, 0⟩).2).1 = .ok Theme.dark ∧
    (DarkModeService.toggleTheme
        (DarkModeService.toggleTheme ⟨some "dark", true, 0⟩).2).2.writeCount = 2 :=
  ⟨(c7_toggleTheme_involution ⟨some "dark", true, 0⟩ Theme.dark rfl).1,
   (c7_toggleTheme_involution ⟨some "dark", true, 0⟩ Theme.dark rfl).2.2⟩

theorem ConnectionService.saveConnection_error_store {c : ConnectionData} {st : ConnStore}
    {e : ConnectionError} (h : (ConnectionService.saveConnection c st).1 = .error e) :
    (ConnectionService.saveConnection c st).2 = st := by
  revert h
  simp only [ConnectionService.saveConnection]
  split
  · intro _
    rfl
  · split
    · intro _
      rfl
    · intro h
      simp at h

/-- C10.  Failure atomicity: whenever a public `ConnectionService` operation
returns a failure whose kind is not `STORAGE_ERROR` (so `INVALID_ID`,
`INVALID_NAME`, `INVALID_STATUS`, `CONNECTION_NOT_FOUND` or
`CONNECTION_EXISTS`), the stored connection list is exactly what it was
before the call. -/
theorem c10_failure_atomicity :
    (∀ (friendName : String) (f : Nat → Fin 16) (now : Int) (baseUrl : String)
      (st : ConnStore) (e : ConnectionError),
      (ConnectionService.generateConnectionLink friendName f now baseUrl st).1 = .error e →
      e.type ≠ .storageError →
      (ConnectionService.generateConnectionLink friendName f now baseUrl st).2 = st) ∧
    (∀ (connectionId : String) (st : ConnStore) (e : ConnectionError),
      (ConnectionService.getConnectionById connectionId st).1 = .error e →
      e.type ≠ .storageError →
      (ConnectionService.getConnectionById connectionId st).2 = st) ∧
    (∀ (status : String) (st : ConnStore) (e : ConnectionError),
      (ConnectionService.getConnectionsByStatus status st).1 = .error e →
      e.type ≠ .storageError →
      (ConnectionService.getConnectionsByStatus status st).2 = st) ∧
    (∀ (connectionId : String) (st : ConnStore) (e : ConnectionError),
      (ConnectionService.acceptConnection connectionId st).1 = .error e →
      e.type ≠ .storageError →
      (ConnectionService.acceptConnection connectionId st).2 = st) ∧
    (∀ (connectionId friendName : String) (now : Int) (st : ConnStore) (e : ConnectionError),
      (ConnectionService.registerIncomingConnection connectionId friendName now st).1 =
        .error e →
      e.type ≠ .storageError →
      (ConnectionService.registerIncomingConnection connectionId friendName now st).2 = st) ∧
    (∀ (connectionId : String) (st : ConnStore) (e : ConnectionError),
      (ConnectionService.deleteConnection connectionId st).1 = .error e →
      e.type ≠ .storageError →
      (ConnectionService.deleteConnection connectionId st).2 = st) := by
  refine ⟨?_, ?_, ?_, ?_, ?_, ?_⟩
  · intro friendName f now baseUrl st e h _
    revert h
    simp only [ConnectionService.generateConnectionLink]
    split
    · intro _
      rfl
    · rename_i trimmed heq1
      split
      · rename_i e1 st2 heq
        intro _
        have h2 : (ConnectionService.saveConnection
            ⟨UuidUtils.generateUUID f, trimmed, .pending, true, now⟩ st).2 = st :=
          @ConnectionService.saveConnection_error_store
            ⟨UuidUtils.generateUUID f, trimmed, .pending, true, now⟩ st e1 (by rw [heq])
        rw [heq] at h2
        exact h2
      · intro h
        simp at h
  · intro connectionId st e h _
    revert h
    simp only [ConnectionService.getConnectionById]
    split
    · intro _
      rfl
    · split
      · intro _
        rfl
      · split
        · intro _
          rfl
        · intro _
          rfl
  · intro status st e h _
    revert h
    simp only [ConnectionService.getConnectionsByStatus]
    split
    · intro _
      rfl
    · split
      · intro _
        rfl
      · intro _
        rfl
  · intro connectionId st e h _
    revert h
    simp only [ConnectionService.acceptConnection]
    split
    · intro _
      rfl
    · split
      · intro _
        rfl
      · split
        · intro _
          rfl
        · intro h
          simp at h
  · intro connectionId friendName now st e h _
    revert h
    simp only [ConnectionService.registerIncomingConnection]
    split
    · intro _
      rfl
    · split
      · intro _
        rfl
      · split
        · intro _
          rfl
        · intro h2
          exact ConnectionService.saveConnection_error_store h2
  · intro connectionId st e h _
    revert h
    simp only [ConnectionService.deleteConnection]
    split
    · intro _
      rfl
    · split
      · intro _
        rfl
      · split
        · intro _
          rfl
        · intro h
          simp at h

/-- C10 witness: the deleteConnection conjunct applied to the absent id
`"x"` on the empty store — the failure kind is `CONNECTION_NOT_FOUND` and the
store is unchanged. -/
theorem c10_witness :
    (ConnectionService.deleteConnection "x" ConnStore.empty).2 = ConnStore.empty :=
  c10_failure_atomicity.2.2.2.2.2 "x" ConnStore.empty
    ⟨.connectionNotFound, "Connection with ID x not found"⟩ rfl (by decide)

end PDG
